import Mathlib

/-!
Shallow embedding of the query-hook factory in src/index.ts
(`createQueryHook`), together with a model of the consumed external
caching primitive (`useQuery` of the delegate library), and proofs of
the specified properties of the factory.

JS runtime values relevant to the code are modelled explicitly:
nullish values (`undefined` / `null` / a value) for query parameters,
and plain objects as association lists of string keys, where object
spread is list append and field lookup prefers the later binding,
matching JS object-literal spread semantics.
-/

namespace UseQueryFactory

/-- A JS value slot that may be `undefined`, `null`, or an actual value. -/
inductive Nullish (α : Type) where
  | undef
  | null
  | value (v : α)
deriving DecidableEq

/-- The JS nullish-coalescing operator `a ?? b`: yields `b` exactly when
`a` is `null` or `undefined`, otherwise `a`. -/
def Nullish.coalesce {α : Type} (a b : Nullish α) : Nullish α :=
  match a with
  | .undef => b
  | .null => b
  | .value v => .value v

/-- One element of a query key array: the code stores the method string,
the request URL string, and the (possibly nullish) params object. -/
inductive KeyElem (P : Type) where
  | str (s : String)
  | par (p : Nullish P)
deriving DecidableEq

/-- A runtime value occurring as a field of an options / axios-config
object. `key` holds a query-key array, `par` a params object slot,
`fnRef` marks a function-valued field (the wrapped queryFn). -/
inductive OptVal (P : Type) where
  | bool (b : Bool)
  | num (n : Int)
  | str (s : String)
  | key (k : List (KeyElem P))
  | par (p : Nullish P)
  | fnRef
deriving DecidableEq

/-- A JS object as an association list; later bindings are the ones a
field access sees, matching object-literal / spread construction order. -/
def getField {V : Type} : List (String × V) → String → Option V
  | [], _ => none
  | (k2, v) :: rest, k =>
      match getField rest k with
      | some v2 => some v2
      | none => if k2 = k then some v else none

/-- The error shape of `AxiosInternalApiError`: an axios error whose
payload optionally carries `error`, `statusCode`, `message`. -/
structure ApiError where
  error : Option String
  statusCode : Option Nat
  message : Option String
deriving DecidableEq

/-- The query-function context the delegate library passes to a query
function (the `queryFnArgs` spread into the wrapper's argument). -/
structure QueryCtx (P : Type) where
  queryKey : List (KeyElem P)
deriving DecidableEq

/-- The argument object `createQueryHook` passes to the factory's
`queryFn`: `{ input, params, axiosConfig, ...queryFnArgs }`. -/
structure QueryFnArgs (I P : Type) where
  input : I
  params : Nullish P
  axiosConfig : List (String × OptVal P)
  ctx : QueryCtx P

/-- The factory's `url` field at runtime: the code checks
`typeof url === "string"` and otherwise calls it as a function. -/
inductive UrlSpec (I : Type) where
  | str (s : String)
  | fn (f : I → String)

/-- The destructured factory configuration: `url`, `queryFn`,
`defaultParams`, and the remaining factory-level query options. -/
structure FactoryConfig (I O P : Type) where
  url : UrlSpec I
  defaultParams : Nullish P
  queryFn : QueryFnArgs I P → Except ApiError O
  factoryQueryOptions : List (String × OptVal P)

/-- The destructured per-call configuration: `input`, `params`,
`axiosConfig`, and the remaining instance-level query options. -/
structure InstanceOptions (I P : Type) where
  input : I
  params : Nullish P
  axiosConfig : List (String × OptVal P)
  instanceQueryOptions : List (String × OptVal P)

/-- `const requestUrl = typeof url === "string" ? url : url(input)`. -/
def requestUrl {I O P : Type} (fc : FactoryConfig I O P) (input : I) : String :=
  match fc.url with
  | .str s => s
  | .fn f => f input

/-- `params = params ?? defaultParams`. -/
def effectiveParams {P : Type} (callParams defParams : Nullish P) : Nullish P :=
  callParams.coalesce defParams

/-- `const queryKey: QueryKey = ["GET", requestUrl, params]`. -/
def queryKey {I O P : Type} (fc : FactoryConfig I O P) (co : InstanceOptions I P) :
    List (KeyElem P) :=
  [KeyElem.str "GET",
   KeyElem.str (requestUrl fc co.input),
   KeyElem.par (effectiveParams co.params fc.defaultParams)]

/-- The axios config handed to the factory `queryFn`:
`{ ...axiosConfig, url: requestUrl, method: "GET", params }`. -/
def builtAxiosConfig {I O P : Type} (fc : FactoryConfig I O P) (co : InstanceOptions I P) :
    List (String × OptVal P) :=
  co.axiosConfig ++
    [("url", OptVal.str (requestUrl fc co.input)),
     ("method", OptVal.str "GET"),
     ("params", OptVal.par (effectiveParams co.params fc.defaultParams))]

/-- The full argument object passed to the factory `queryFn` by the
wrapper: `{ input, params, axiosConfig: {...}, ...queryFnArgs }`. -/
def mkQueryFnArgs {I O P : Type} (fc : FactoryConfig I O P) (co : InstanceOptions I P)
    (ctx : QueryCtx P) : QueryFnArgs I P :=
  { input := co.input
    params := effectiveParams co.params fc.defaultParams
    axiosConfig := builtAxiosConfig fc co
    ctx := ctx }

/-- The `queryFn` wrapper handed to the delegate: it awaits and returns
`queryFn({...})` directly, with no catch, retry or classification. -/
def wrappedQueryFn {I O P : Type} (fc : FactoryConfig I O P) (co : InstanceOptions I P) :
    QueryCtx P → Except ApiError O :=
  fun ctx => fc.queryFn (mkQueryFnArgs fc co ctx)

/-- The single built-in default layer of the options object:
`refetchOnWindowFocus: false`. -/
def builtinDefaults {P : Type} : List (String × OptVal P) :=
  [("refetchOnWindowFocus", OptVal.bool false)]

/-- The options object passed to the delegate `useQuery`:
`{ refetchOnWindowFocus: false, ...factoryQueryOptions,
...instanceQueryOptions, queryKey, queryFn }`, as spread order. -/
def mergedQueryOptions {I O P : Type} (fc : FactoryConfig I O P) (co : InstanceOptions I P) :
    List (String × OptVal P) :=
  builtinDefaults ++
    (fc.factoryQueryOptions ++
      (co.instanceQueryOptions ++
        [("queryKey", OptVal.key (queryKey fc co)), ("queryFn", OptVal.fnRef)]))

/-- The result object of the delegate caching primitive: at least
`data`, `error`, `isLoading` plus success / error state flags. -/
structure UseQueryResult (O : Type) where
  data : Option O
  error : Option ApiError
  isLoading : Bool
  isError : Bool
  isSuccess : Bool
deriving DecidableEq

/-- Modelled from the spec: the consumed external caching/fetching
primitive (the delegate `useQuery`, not part of this repository). It
receives the options object (carrying the query key) and the query
function; it calls the query function with a context holding that key
and reports the settled outcome: on success `data` is the value and
`error` empty, on failure `error` is the thrown error unmodified and
`data` stays undefined. -/
def useQuery {O P : Type} (options : List (String × OptVal P))
    (qf : QueryCtx P → Except ApiError O) : UseQueryResult O :=
  let ctx : QueryCtx P :=
    { queryKey :=
        match getField options "queryKey" with
        | some (OptVal.key k) => k
        | _ => [] }
  match qf ctx with
  | .ok v =>
      { data := some v, error := none, isLoading := false,
        isError := false, isSuccess := true }
  | .error e =>
      { data := none, error := some e, isLoading := false,
        isError := true, isSuccess := false }

/-- The object the generated invoker returns: every field of the
delegate result, plus the derived `queryKey`. -/
structure HookResult (O P : Type) extends UseQueryResult O where
  queryKey : List (KeyElem P)
deriving DecidableEq

/-- The factory: given the factory configuration, returns the invoker
that resolves the URL, computes effective params, derives the query
key, merges the option layers, calls the delegate with the wrapped
query function, and returns the result with `queryKey` attached. -/
def createQueryHook {I O P : Type} (fc : FactoryConfig I O P) :
    InstanceOptions I P → HookResult O P :=
  fun co =>
    let query := useQuery (mergedQueryOptions fc co) (wrappedQueryFn fc co)
    { toUseQueryResult := query, queryKey := queryKey fc co }

/-! ### Concrete example configurations (mirror the example endpoints) -/

/-- A transport error payload with a 404 status, as in the spec's
end-to-end scenario C. -/
def exErr : ApiError :=
  { error := none, statusCode := some 404, message := some "Not Found" }

/-- A factory with a URL-resolution function, a default param and a
factory-level staleTime option. -/
def exFactory : FactoryConfig Nat Nat Nat :=
  { url := UrlSpec.fn fun n => "/todos/" ++ toString n
    defaultParams := Nullish.value 1
    queryFn := fun args => Except.ok args.input
    factoryQueryOptions := [("staleTime", OptVal.num 300000)] }

/-- A factory whose url is a constant string. -/
def exConstFactory : FactoryConfig Nat Nat Nat :=
  { url := UrlSpec.str "/todos"
    defaultParams := Nullish.undef
    queryFn := fun args => Except.ok args.input
    factoryQueryOptions := [] }

/-- A factory whose request function always fails with `exErr`. -/
def exFailFactory : FactoryConfig Nat Nat Nat :=
  { url := UrlSpec.fn fun n => "/todos/" ++ toString n
    defaultParams := Nullish.undef
    queryFn := fun _ => Except.error exErr
    factoryQueryOptions := [] }

/-- A call-site configuration with params, an extra axios field and a
call-site staleTime override. -/
def exInstance : InstanceOptions Nat Nat :=
  { input := 7
    params := Nullish.value 2
    axiosConfig := [("headers", OptVal.str "json")]
    instanceQueryOptions := [("staleTime", OptVal.num 0)] }

/-! ### Helper lemmas -/

/-- A field bound in the later (right) object wins across an append,
matching spread override semantics. -/
theorem getField_append_some {V : Type} (a b : List (String × V)) (k : String)
    (v : V) (h : getField b k = some v) : getField (a ++ b) k = some v := by
  induction a with
  | nil => simpa using h
  | cons hd tl ih =>
      cases hd with
      | mk k2 v2 =>
          simp only [List.cons_append, getField, List.append_eq, ih]

/-- A field absent from the later (right) object falls through to the
earlier one across an append. -/
theorem getField_append_none {V : Type} (a b : List (String × V)) (k : String)
    (h : getField b k = none) : getField (a ++ b) k = getField a k := by
  induction a with
  | nil => simpa using h
  | cons hd tl ih =>
      cases hd with
      | mk k2 v2 =>
          simp only [List.cons_append, getField, List.append_eq, ih]

/-- Field lookup across an append prefers the later (right) object,
matching spread override semantics. -/
theorem getField_append {V : Type} (a b : List (String × V)) (k : String) :
    getField (a ++ b) k =
      match getField b k with
      | some v => some v
      | none => getField a k := by
  cases h : getField b k with
  | some v => exact getField_append_some a b k v h
  | none => exact getField_append_none a b k h

/-- The derived query key is bound last (before only `queryFn`) in the
merged options object, so lookup always yields it. -/
theorem getField_merged_queryKey {I O P : Type} (fc : FactoryConfig I O P)
    (co : InstanceOptions I P) :
    getField (mergedQueryOptions fc co) "queryKey" =
      some (OptVal.key (queryKey fc co)) := by
  simp [mergedQueryOptions, getField_append, getField]

/-! ### Claim theorems -/

/-- C1: the cache key passed to the delegate caching primitive is
exactly the 3-element ordered sequence
`["GET", resolvedUrl, effectiveParams]`; two invocations with the same
verb, resolved URL and effective params produce structurally equal
keys, and a difference in any of the three elements produces a
different key. -/
theorem cacheKey_shape_and_discrimination {I O P : Type}
    (fc : FactoryConfig I O P) (co : InstanceOptions I P) :
    getField (mergedQueryOptions fc co) "queryKey"
      = some (OptVal.key
          [KeyElem.str "GET",
           KeyElem.str (requestUrl fc co.input),
           KeyElem.par (effectiveParams co.params fc.defaultParams)])
    ∧ (queryKey fc co).length = 3
    ∧ ∀ (m u : String) (p : Nullish P) (m2 u2 : String) (p2 : Nullish P),
        ([KeyElem.str m, KeyElem.str u, KeyElem.par p] : List (KeyElem P))
            = [KeyElem.str m2, KeyElem.str u2, KeyElem.par p2]
          ↔ (m = m2 ∧ u = u2 ∧ p = p2) := by
  refine ⟨getField_merged_queryKey fc co, rfl, ?_⟩
  intro m u p m2 u2 p2
  simp

/-- C2: effective parameters follow strict two-level precedence:
the call-site params when provided, else the factory default params,
else undefined; the result is always one of the two objects wholesale,
never a merge of fields from both. -/
theorem effectiveParams_two_level {P : Type} (p d : Nullish P) :
    (∀ v : P, p = Nullish.value v → effectiveParams p d = Nullish.value v)
    ∧ (p = Nullish.undef → effectiveParams p d = d)
    ∧ (p = Nullish.undef → d = Nullish.undef →
        effectiveParams p d = Nullish.undef)
    ∧ (effectiveParams p d = p ∨ effectiveParams p d = d) := by
  cases p <;> simp [effectiveParams, Nullish.coalesce]

/-- Witness for C2 at concrete inputs. -/
theorem effectiveParams_two_level_witness :
    effectiveParams (Nullish.value 5) (Nullish.value 7) = Nullish.value 5
    ∧ effectiveParams (Nullish.undef : Nullish Nat) (Nullish.value 7)
        = Nullish.value 7 :=
  ⟨(effectiveParams_two_level (Nullish.value 5) (Nullish.value 7)).1 5 rfl,
   (effectiveParams_two_level Nullish.undef (Nullish.value 7)).2.1 rfl⟩

/-- C3: every option field of the object passed to the delegate obeys
three-tier precedence with shallow override: call-site over factory
over the single built-in default, which turns
auto-revalidate-on-window-focus off; in particular a factory
staleTime of 300000 overridden by a call-site staleTime of 0 yields 0. -/
theorem optionMerge_three_tier {I O P : Type} (fc : FactoryConfig I O P)
    (co : InstanceOptions I P) :
    (∀ k : String, k ≠ "queryKey" → k ≠ "queryFn" →
        getField (mergedQueryOptions fc co) k =
          match getField co.instanceQueryOptions k with
          | some v => some v
          | none =>
            match getField fc.factoryQueryOptions k with
            | some v => some v
            | none => getField builtinDefaults k)
    ∧ getField (builtinDefaults : List (String × OptVal P))
        "refetchOnWindowFocus" = some (OptVal.bool false)
    ∧ (getField fc.factoryQueryOptions "staleTime"
          = some (OptVal.num 300000) →
       getField co.instanceQueryOptions "staleTime" = some (OptVal.num 0) →
       getField (mergedQueryOptions fc co) "staleTime"
          = some (OptVal.num 0)) := by
  have main : ∀ k : String, k ≠ "queryKey" → k ≠ "queryFn" →
      getField (mergedQueryOptions fc co) k =
        match getField co.instanceQueryOptions k with
        | some v => some v
        | none =>
          match getField fc.factoryQueryOptions k with
          | some v => some v
          | none => getField builtinDefaults k := by
    intro k hk1 hk2
    have htail : getField
        ([("queryKey", OptVal.key (queryKey fc co)),
          ("queryFn", OptVal.fnRef)] : List (String × OptVal P)) k = none := by
      simp [getField, Ne.symm hk1, Ne.symm hk2]
    have e1 : getField (co.instanceQueryOptions ++
        [("queryKey", OptVal.key (queryKey fc co)),
         ("queryFn", OptVal.fnRef)]) k
        = getField co.instanceQueryOptions k :=
      getField_append_none _ _ _ htail
    simp only [mergedQueryOptions]
    rw [getField_append, getField_append, e1]
    cases getField co.instanceQueryOptions k <;>
      cases getField fc.factoryQueryOptions k <;> rfl
  refine ⟨main, rfl, ?_⟩
  intro hf hi
  have h := main "staleTime" (by decide) (by decide)
  rw [h, hi]

/-- Witness for C3: the concrete factory sets staleTime = 300000, the
call site sets staleTime = 0, and the merged options carry 0; the
built-in refetchOnWindowFocus default survives when unset. -/
theorem optionMerge_three_tier_witness :
    getField (mergedQueryOptions exFactory exInstance) "staleTime"
      = some (OptVal.num 0)
    ∧ getField (mergedQueryOptions exFactory exInstance)
        "refetchOnWindowFocus" = some (OptVal.bool false) :=
  ⟨(optionMerge_three_tier exFactory exInstance).2.2 rfl rfl,
   ((optionMerge_three_tier exFactory exInstance).1
      "refetchOnWindowFocus" (by decide) (by decide)).trans rfl⟩

/-- C4: when the factory url is a resolution function the resolved URL
is `urlFn(input)` for every input; when it is a constant string the
resolved URL is that constant regardless of input. -/
theorem requestUrl_resolution {I O P : Type} (fc : FactoryConfig I O P) :
    (∀ f : I → String, fc.url = UrlSpec.fn f →
        ∀ input : I, requestUrl fc input = f input)
    ∧ (∀ s : String, fc.url = UrlSpec.str s →
        ∀ input input2 : I,
          requestUrl fc input = s
          ∧ requestUrl fc input = requestUrl fc input2) := by
  constructor
  · intro f h input
    simp [requestUrl, h]
  · intro s h input input2
    simp [requestUrl, h]

/-- Witness for C4 at a function-url factory and a constant-url
factory. -/
theorem requestUrl_resolution_witness :
    requestUrl exFactory 7 = "/todos/7"
    ∧ requestUrl exConstFactory 7 = "/todos"
    ∧ requestUrl exConstFactory 7 = requestUrl exConstFactory 99 :=
  ⟨((requestUrl_resolution exFactory).1
      (fun n => "/todos/" ++ toString n) rfl 7).trans rfl,
   ((requestUrl_resolution exConstFactory).2 "/todos" rfl 7 99).1,
   ((requestUrl_resolution exConstFactory).2 "/todos" rfl 7 99).2⟩

/-- C5: the wrapped request function receives the call-site input, the
effective params, and an axios config whose url, method and params
fields hold the internally derived values whatever the call-site
config contains, while every other call-site axios field is passed
through unchanged. -/
theorem queryFn_argument_shape {I O P : Type} (fc : FactoryConfig I O P)
    (co : InstanceOptions I P) (ctx : QueryCtx P) :
    wrappedQueryFn fc co ctx = fc.queryFn (mkQueryFnArgs fc co ctx)
    ∧ (mkQueryFnArgs fc co ctx).input = co.input
    ∧ (mkQueryFnArgs fc co ctx).params
        = effectiveParams co.params fc.defaultParams
    ∧ getField (mkQueryFnArgs fc co ctx).axiosConfig "url"
        = some (OptVal.str (requestUrl fc co.input))
    ∧ getField (mkQueryFnArgs fc co ctx).axiosConfig "method"
        = some (OptVal.str "GET")
    ∧ getField (mkQueryFnArgs fc co ctx).axiosConfig "params"
        = some (OptVal.par (effectiveParams co.params fc.defaultParams))
    ∧ ∀ k : String, k ≠ "url" → k ≠ "method" → k ≠ "params" →
        getField (mkQueryFnArgs fc co ctx).axiosConfig k
          = getField co.axiosConfig k := by
  refine ⟨rfl, rfl, rfl, ?_, ?_, ?_, ?_⟩
  · exact getField_append_some co.axiosConfig _ "url"
      (OptVal.str (requestUrl fc co.input)) rfl
  · exact getField_append_some co.axiosConfig _ "method"
      (OptVal.str "GET") rfl
  · exact getField_append_some co.axiosConfig _ "params"
      (OptVal.par (effectiveParams co.params fc.defaultParams)) rfl
  · intro k hk1 hk2 hk3
    have htail : getField
        ([("url", OptVal.str (requestUrl fc co.input)),
          ("method", OptVal.str "GET"),
          ("params", OptVal.par (effectiveParams co.params fc.defaultParams))]
          : List (String × OptVal P)) k = none := by
      simp [getField, Ne.symm hk1, Ne.symm hk2, Ne.symm hk3]
    exact getField_append_none co.axiosConfig _ k htail

/-- Witness for C5: the derived url/method/params fields and the
pass-through of the headers field at concrete configurations. -/
theorem queryFn_argument_shape_witness :
    getField (mkQueryFnArgs exFactory exInstance (QueryCtx.mk [])).axiosConfig
        "url" = some (OptVal.str "/todos/7")
    ∧ getField (mkQueryFnArgs exFactory exInstance (QueryCtx.mk [])).axiosConfig
        "headers" = getField exInstance.axiosConfig "headers" :=
  ⟨((queryFn_argument_shape exFactory exInstance (QueryCtx.mk [])).2.2.2.1).trans
      rfl,
   (queryFn_argument_shape exFactory exInstance (QueryCtx.mk [])).2.2.2.2.2.2
      "headers" (by decide) (by decide) (by decide)⟩

/-- C6: a failure of the request function is neither caught, retried
nor classified: the wrapper returns it unmodified to the delegate, and
the invoker's result carries it in the error field with data
undefined. -/
theorem error_passthrough {I O P : Type} (fc : FactoryConfig I O P)
    (co : InstanceOptions I P) (e : ApiError)
    (h : fc.queryFn (mkQueryFnArgs fc co (QueryCtx.mk (queryKey fc co)))
          = Except.error e) :
    wrappedQueryFn fc co (QueryCtx.mk (queryKey fc co)) = Except.error e
    ∧ (createQueryHook fc co).error = some e
    ∧ (createQueryHook fc co).data = none
    ∧ (createQueryHook fc co).isError = true := by
  refine ⟨h, ?_⟩
  simp [createQueryHook, useQuery, wrappedQueryFn,
    getField_merged_queryKey, h]

/-- Witness for C6: with a request function that always fails with a
404 transport error, the result exposes that error and data is
undefined. -/
theorem error_passthrough_witness :
    (createQueryHook exFailFactory exInstance).error = some exErr
    ∧ (createQueryHook exFailFactory exInstance).data = (none : Option Nat) :=
  ⟨(error_passthrough exFailFactory exInstance exErr rfl).2.1,
   (error_passthrough exFailFactory exInstance exErr rfl).2.2.1⟩

/-- C7: the invoker returns every field of the delegate result
unchanged, augmented with the derived cache key, and the attached key
is the very key supplied to the delegate for that call. -/
theorem result_passthrough_with_key {I O P : Type} (fc : FactoryConfig I O P)
    (co : InstanceOptions I P) :
    (createQueryHook fc co).data
        = (useQuery (mergedQueryOptions fc co) (wrappedQueryFn fc co)).data
    ∧ (createQueryHook fc co).error
        = (useQuery (mergedQueryOptions fc co) (wrappedQueryFn fc co)).error
    ∧ (createQueryHook fc co).isLoading
        = (useQuery (mergedQueryOptions fc co) (wrappedQueryFn fc co)).isLoading
    ∧ (createQueryHook fc co).isError
        = (useQuery (mergedQueryOptions fc co) (wrappedQueryFn fc co)).isError
    ∧ (createQueryHook fc co).isSuccess
        = (useQuery (mergedQueryOptions fc co) (wrappedQueryFn fc co)).isSuccess
    ∧ (createQueryHook fc co).queryKey = queryKey fc co
    ∧ getField (mergedQueryOptions fc co) "queryKey"
        = some (OptVal.key ((createQueryHook fc co).queryKey)) := by
  refine ⟨rfl, rfl, rfl, rfl, rfl, rfl, ?_⟩
  exact getField_merged_queryKey fc co

/-- C8: cache-key derivation is deterministic: two invocations of the
same invoker with identical call configurations yield structurally
identical cache keys. -/
theorem cacheKey_deterministic {I O P : Type} (fc : FactoryConfig I O P)
    (co co2 : InstanceOptions I P)
    (h1 : co.input = co2.input) (h2 : co.params = co2.params)
    (h3 : co.axiosConfig = co2.axiosConfig)
    (h4 : co.instanceQueryOptions = co2.instanceQueryOptions) :
    (createQueryHook fc co).queryKey = (createQueryHook fc co2).queryKey
    ∧ queryKey fc co = queryKey fc co2 := by
  obtain ⟨i1, p1, a1, q1⟩ := co
  obtain ⟨i2, p2, a2, q2⟩ := co2
  cases h1
  cases h2
  cases h3
  cases h4
  exact ⟨rfl, rfl⟩

/-- Witness for C8: the same concrete call configuration twice gives
the same key. -/
theorem cacheKey_deterministic_witness :
    (createQueryHook exFactory exInstance).queryKey
      = (createQueryHook exFactory exInstance).queryKey :=
  (cacheKey_deterministic exFactory exInstance exInstance
    rfl rfl rfl rfl).1

/-- C9: the query key the delegate receives is always the internally
derived one — no factory-level or call-site-level option object can
override it, since the derived key is bound after both layers — and
the key returned to the caller is that same derived key. -/
theorem derived_key_not_overridable {I O P : Type} (fc : FactoryConfig I O P)
    (co : InstanceOptions I P) :
    getField (mergedQueryOptions fc co) "queryKey"
      = some (OptVal.key (queryKey fc co))
    ∧ (createQueryHook fc co).queryKey = queryKey fc co :=
  ⟨getField_merged_queryKey fc co, rfl⟩

/-- C10: call-site params equal to null fall back to the factory
default params, because the fallback is nullish coalescing; a caller
cannot clear the defaults by passing null explicitly. -/
theorem null_params_fall_back {P : Type} (d : Nullish P) :
    effectiveParams Nullish.null d = d
    ∧ ∀ v : P,
        effectiveParams Nullish.null (Nullish.value v) = Nullish.value v
        ∧ effectiveParams Nullish.null (Nullish.value v) ≠ Nullish.null := by
  refine ⟨rfl, ?_⟩
  intro v
  exact ⟨rfl, by simp [effectiveParams, Nullish.coalesce]⟩

end UseQueryFactory
